import Mathlib

/-!
Shallow embedding of the coping-tool recommendation engine
(`copingRecommendation.ts`): sentiment analysis, mood-intensity mapping,
tool scoring, explanation generation, the recommendation orchestrator, and
context construction, together with theorems settling the specification
claims about them.

Two levels are modelled:
* the typed engine level (`Mood`, `CopingCategory`, `IntensityLevel` as the
  closed unions declared in the TypeScript source);
* a runtime ("raw") level for context construction, where moods are plain
  strings as they are at JavaScript runtime, so that behaviour on values
  outside the closed union is expressible (`Raw` namespace).  A JavaScript
  record lookup that can yield `undefined` is modelled with `Option`.
-/

/-- The single-quote character, used inside keyword strings. -/
def singleQuote : String := (Char.ofNat 39).toString

/-- Closed mood union from the source (`type Mood`). -/
inductive Mood where
  | anxious | frustrated | sad | neutral | calm | happy
deriving DecidableEq, Repr

/-- The string literal each `Mood` value denotes in the source. -/
def Mood.label : Mood → String
  | .anxious => "anxious"
  | .frustrated => "frustrated"
  | .sad => "sad"
  | .neutral => "neutral"
  | .calm => "calm"
  | .happy => "happy"

/-- `type CopingCategory` from the source. -/
inductive CopingCategory where
  | breathing | grounding | cognitive | movement | reflection
deriving DecidableEq, Repr

/-- The string literal each category denotes in the source. -/
def CopingCategory.label : CopingCategory → String
  | .breathing => "breathing"
  | .grounding => "grounding"
  | .cognitive => "cognitive"
  | .movement => "movement"
  | .reflection => "reflection"

/-- `type IntensityLevel` from the source. -/
inductive IntensityLevel where
  | low | medium | high
deriving DecidableEq, Repr

/-- `interface CopingTool` (the presentation-only `icon` component is not
representable and carries no logic; the remaining fields are kept). -/
structure CopingTool where
  id : String
  title : String
  description : String
  category : CopingCategory
  supportedMoods : List Mood
  intensityLevel : IntensityLevel
  durationMinutes : Nat
  color : String
  type : String
deriving DecidableEq, Repr

/-- `interface RecommendationContext`. -/
structure RecommendationContext where
  currentMood : Option Mood
  moodIntensity : Nat
  recentChatSummary : String
  chatKeywords : List String
deriving DecidableEq, Repr

/-- `interface RecommendedTool extends CopingTool`. -/
structure RecommendedTool extends CopingTool where
  score : Nat
  reason : String
deriving DecidableEq, Repr

/-- JavaScript `haystack.includes(needle)` substring test. -/
def jsIncludes (haystack needle : String) : Bool :=
  decide (needle.toList <:+: haystack.toList)

/-- JavaScript `s.toLowerCase()`, character by character (all keywords and
inputs of interest are ASCII). -/
def jsToLowerCase (s : String) : String :=
  String.mk (s.toList.map Char.toLower)

/-- `CRISIS_KEYWORDS` from the source. -/
def CRISIS_KEYWORDS : List String :=
  ["panic", "overwhelmed", "heart racing", "can" ++ singleQuote ++ "t breathe", "scared",
   "terrified", "anxiety attack", "out of control", "dizzy", "shaking"]

/-- `LOW_MOOD_KEYWORDS` from the source. -/
def LOW_MOOD_KEYWORDS : List String :=
  ["tired", "hopeless", "alone", "sad", "depressed", "empty",
   "worthless", "numb", "crying", "heavy", "dark"]

/-- `STRESS_KEYWORDS` from the source. -/
def STRESS_KEYWORDS : List String :=
  ["stressed", "overloaded", "too much", "pressure", "deadline",
   "exhausted", "tense", "tight", "sore", "headache"]

/-- Result record of `analyzeChatSentiment`. -/
structure SentimentResult where
  keywords : List String
  hasCrisis : Bool
  hasLowMood : Bool
  hasStress : Bool
deriving DecidableEq, Repr

/-- The `Array.prototype.some` loop used in `analyzeChatSentiment`: it
short-circuits at the first keyword of the list that is a substring of the
lowered text, pushing exactly that keyword.  Returning the first match as an
`Option` captures both the pushed keyword (`some kw`) and the boolean result
(`isSome`). -/
def findKeyword (kws : List String) (lower : String) : Option String :=
  kws.find? (fun kw => jsIncludes lower kw)

/-- `analyzeChatSentiment` from the source: lowercase the text, scan the three
keyword lists independently, record the first match of each list (in list
order) and set the corresponding flag. -/
def analyzeChatSentiment (chatText : String) : SentimentResult :=
  let lower := jsToLowerCase chatText
  let crisisHit := findKeyword CRISIS_KEYWORDS lower
  let lowMoodHit := findKeyword LOW_MOOD_KEYWORDS lower
  let stressHit := findKeyword STRESS_KEYWORDS lower
  { keywords := crisisHit.toList ++ lowMoodHit.toList ++ stressHit.toList
    hasCrisis := crisisHit.isSome
    hasLowMood := lowMoodHit.isSome
    hasStress := stressHit.isSome }

/-- Block 1 of `scoreTool`: mood compatibility (0-40). -/
def moodComponent (tool : CopingTool) (context : RecommendationContext) : Nat :=
  match context.currentMood with
  | some m => if tool.supportedMoods.contains m then 40 else 20
  | none => 0

/-- Block 2 of `scoreTool`: chat sentiment alignment (0-30).  The branches are
an `if / else if / else if` chain on the flags alone, so a true `hasCrisis`
skips the low-mood and stress branches entirely. -/
def sentimentComponent (tool : CopingTool) (sentiment : SentimentResult) : Nat :=
  if sentiment.hasCrisis then
    if tool.category = .breathing ∨ tool.category = .grounding then 30 else 0
  else if sentiment.hasLowMood then
    if tool.category = .reflection ∨ tool.category = .cognitive then 30 else 0
  else if sentiment.hasStress then
    if tool.category = .movement ∨ tool.category = .grounding then 30 else 0
  else 0

/-- Block 3 of `scoreTool`: intensity matching (0-20).  Each tier contains two
independent (non-else) `if` statements exactly as in the source. -/
def intensityComponent (tool : CopingTool) (moodIntensity : Nat) : Nat :=
  if moodIntensity ≥ 7 then
    (if tool.intensityLevel = .high then 20 else 0) +
      (if tool.intensityLevel = .medium then 10 else 0)
  else if moodIntensity ≥ 4 then
    (if tool.intensityLevel = .medium then 20 else 0) +
      (if tool.intensityLevel = .low then 15 else 0)
  else
    (if tool.intensityLevel = .low then 20 else 0) +
      (if tool.intensityLevel = .medium then 10 else 0)

/-- Block 4 of `scoreTool`: duration preference (0-10), applied only when the
current mood is absent (falsy) or equals neutral. -/
def durationComponent (tool : CopingTool) (context : RecommendationContext) : Nat :=
  if context.currentMood = none ∨ context.currentMood = some .neutral then
    if tool.durationMinutes ≤ 3 then 10
    else if tool.durationMinutes ≤ 5 then 5
    else 0
  else 0

/-- `scoreTool` from the source: the sequential `score +=` accumulation of the
four blocks, capped at 100 with `Math.min`. -/
def scoreTool (tool : CopingTool) (context : RecommendationContext) : Nat :=
  min (moodComponent tool context
    + sentimentComponent tool (analyzeChatSentiment context.recentChatSummary)
    + intensityComponent tool context.moodIntensity
    + durationComponent tool context) 100

/-- Reason string pushed by the crisis branch of `generateExplanation`. -/
def crisisReason : String := "you mentioned feeling overwhelmed"

/-- Reason string pushed by the low-mood branch of `generateExplanation`. -/
def lowMoodReason : String := "you expressed feelings of sadness or hopelessness"

/-- Reason string pushed by the stress branch of `generateExplanation`. -/
def stressReason : String := "you mentioned feeling stressed or tense"

/-- Reason string pushed by the intensity branch of `generateExplanation`. -/
def reliefReason : String := "this offers quick relief"

/-- The `reasons` array built inside `generateExplanation`.  Note that unlike
`scoreTool`, the sentiment chain here conjoins each flag with the category
test, so a non-matching category falls through to the next branch. -/
def explanationReasons (tool : CopingTool) (context : RecommendationContext) : List String :=
  let sentiment := analyzeChatSentiment context.recentChatSummary
  (match context.currentMood with
   | some m => ["you felt " ++ m.label ++ " today"]
   | none => []) ++
  (if sentiment.hasCrisis ∧ (tool.category = .breathing ∨ tool.category = .grounding) then
     [crisisReason]
   else if sentiment.hasLowMood ∧ (tool.category = .reflection ∨ tool.category = .cognitive) then
     [lowMoodReason]
   else if sentiment.hasStress ∧ (tool.category = .movement ∨ tool.category = .grounding) then
     [stressReason]
   else []) ++
  (if context.moodIntensity ≥ 7 ∧ tool.intensityLevel = .high then [reliefReason] else [])

/-- `generateExplanation` from the source. -/
def generateExplanation (tool : CopingTool) (context : RecommendationContext) : String :=
  let reasons := explanationReasons tool context
  if reasons.length = 0 then
    "This " ++ tool.category.label ++ " technique is gentle and effective."
  else
    "This technique is suggested because " ++ String.intercalate " and " reasons ++ "."

/-- The `tools.map` stage of `getRecommendedCopingTools`. -/
def scoredTools (tools : List CopingTool) (context : RecommendationContext) :
    List RecommendedTool :=
  tools.map fun tool =>
    { tool with score := scoreTool tool context, reason := generateExplanation tool context }

/-- The order induced by the comparator `(a, b) => b.score - a.score`:
`a` may stay before `b` exactly when `b.score ≤ a.score`. -/
def scoreDesc (a b : RecommendedTool) : Bool :=
  b.score ≤ a.score

/-- `getRecommendedCopingTools` from the source: score every tool, then sort
descending by score.  `Array.prototype.sort` is a stable sort (ECMAScript
2019+), modelled by `List.mergeSort`. -/
def getRecommendedCopingTools (tools : List CopingTool)
    (context : RecommendationContext) : List RecommendedTool :=
  (scoredTools tools context).mergeSort scoreDesc

namespace Raw

/-- Raw check-in record as `buildRecommendationContext` receives it at
JavaScript runtime: the mood is a plain string, with no guarantee that it
belongs to the closed `Mood` union. -/
structure CheckIn where
  mood : String
  createdAt : String
deriving DecidableEq, Repr

/-- Raw chat message record. -/
structure ChatMessage where
  text : String
deriving DecidableEq, Repr

/-- The context record produced by `buildRecommendationContext` at runtime.
`moodIntensity` is an `Option` because the JavaScript expression
`intensityMap[mood]` yields `undefined` (modelled `none`) when `mood` has no
entry in the table. -/
structure RecommendationContext where
  currentMood : Option String
  moodIntensity : Option Nat
  recentChatSummary : String
  chatKeywords : List String
deriving DecidableEq, Repr

/-- The `intensityMap` object literal inside `getMoodIntensity`, as a
JavaScript property lookup: `undefined` (`none`) for any key not present. -/
def intensityMap (m : String) : Option Nat :=
  if m = "anxious" then some 8
  else if m = "frustrated" then some 7
  else if m = "sad" then some 6
  else if m = "neutral" then some 4
  else if m = "calm" then some 3
  else if m = "happy" then some 2
  else none

/-- `getMoodIntensity` from the source, at runtime: `mood ? intensityMap[mood] : 5`.
`null` and the empty string are falsy in JavaScript, giving the default 5;
any other string is looked up in the table, yielding `undefined` (`none`)
when absent. -/
def getMoodIntensity (mood : Option String) : Option Nat :=
  match mood with
  | none => some 5
  | some m => if m = "" then some 5 else intensityMap m

/-- `buildRecommendationContext` from the source.  The ambient
`new Date().toDateString()` is the parameter `today`, and the conversion
`s ↦ new Date(s).toDateString()` applied to each check-in's `createdAt` is
the parameter `toDateString`.  `chatMessages` is an optional parameter
(`none` models passing `undefined`). -/
def buildRecommendationContext (toDateString : String → String) (today : String)
    (checkIns : List CheckIn) (chatMessages : Option (List ChatMessage)) :
    RecommendationContext :=
  let todayCheckIns := checkIns.filter fun item => toDateString item.createdAt = today
  let currentMood : Option String :=
    match todayCheckIns with
    | [] => none
    | item :: _ => some item.mood
  let moodIntensity := getMoodIntensity currentMood
  let recentChatSummary :=
    match chatMessages with
    | some msgs => String.intercalate " " ((msgs.take 5).map (·.text))
    | none => ""
  let analyzed := analyzeChatSentiment recentChatSummary
  { currentMood := currentMood
    moodIntensity := moodIntensity
    recentChatSummary := recentChatSummary
    chatKeywords := analyzed.keywords }

end Raw

/-! ### Concrete values used by witnesses and counterexamples -/

/-- A concrete breathing tool (Box Breathing from the catalog). -/
def boxBreathing : CopingTool :=
  { id := "box-breathing", title := "Box Breathing", description := "4-4-4-4 breathing",
    category := .breathing, supportedMoods := [.anxious, .frustrated, .neutral],
    intensityLevel := .high, durationMinutes := 2, color := "", type := "breathing" }

/-- A concrete movement tool. -/
def stretchTool : CopingTool :=
  { id := "stretch", title := "Stretch Break", description := "gentle stretching",
    category := .movement, supportedMoods := [.frustrated], intensityLevel := .medium,
    durationMinutes := 4, color := "", type := "stretch" }

/-- A context whose chat summary holds both a crisis keyword ("panic") and a
stress keyword ("pressure"), and no low-mood keyword. -/
def crisisStressCtx : RecommendationContext :=
  { currentMood := some .anxious, moodIntensity := 8,
    recentChatSummary := "panic pressure", chatKeywords := [] }

/-! ### Component bounds -/

/-- The mood-compatibility block yields at most 40 points. -/
theorem moodComponent_le (tool : CopingTool) (context : RecommendationContext) :
    moodComponent tool context ≤ 40 := by
  rcases hc : context.currentMood with _ | m <;> simp only [moodComponent, hc]
  · omega
  · split <;> omega

/-- The sentiment-alignment block yields at most 30 points. -/
theorem sentimentComponent_le (tool : CopingTool) (sentiment : SentimentResult) :
    sentimentComponent tool sentiment ≤ 30 := by
  unfold sentimentComponent
  split_ifs <;> omega

/-- The intensity-matching block yields at most 20 points. -/
theorem intensityComponent_le (tool : CopingTool) (moodIntensity : Nat) :
    intensityComponent tool moodIntensity ≤ 20 := by
  unfold intensityComponent
  split_ifs <;> simp_all

/-- The duration-preference block yields at most 10 points. -/
theorem durationComponent_le (tool : CopingTool) (context : RecommendationContext) :
    durationComponent tool context ≤ 10 := by
  unfold durationComponent
  split_ifs <;> omega

/-- C1: for every coping tool and every recommendation context, the score
returned by `scoreTool` lies between 0 and 100 inclusive and equals the sum
of the four non-negative scoring components clamped above at 100. -/
theorem scoreTool_in_range (tool : CopingTool) (context : RecommendationContext) :
    0 ≤ scoreTool tool context ∧ scoreTool tool context ≤ 100 ∧
    scoreTool tool context =
      min (moodComponent tool context
        + sentimentComponent tool (analyzeChatSentiment context.recentChatSummary)
        + intensityComponent tool context.moodIntensity
        + durationComponent tool context) 100 :=
  ⟨Nat.zero_le _, Nat.min_le_right _ _, rfl⟩

/-- C6: the orchestrator returns exactly one entry per catalog tool, and an
empty catalog yields an empty result. -/
theorem getRecommendedCopingTools_length (tools : List CopingTool)
    (context : RecommendationContext) :
    (getRecommendedCopingTools tools context).length = tools.length ∧
    getRecommendedCopingTools [] context = [] := by
  constructor
  · simp [getRecommendedCopingTools, scoredTools]
  · simp [getRecommendedCopingTools, scoredTools]

/-- C10: `scoreTool` and `generateExplanation` never consult the
`chatKeywords` field of the context: two contexts that agree on the other
three fields produce identical scores and identical explanations. -/
theorem chatKeywords_never_consulted (tool : CopingTool)
    (c1 c2 : RecommendationContext)
    (hm : c1.currentMood = c2.currentMood)
    (hi : c1.moodIntensity = c2.moodIntensity)
    (hs : c1.recentChatSummary = c2.recentChatSummary) :
    scoreTool tool c1 = scoreTool tool c2 ∧
    generateExplanation tool c1 = generateExplanation tool c2 := by
  obtain ⟨m1, i1, s1, k1⟩ := c1
  obtain ⟨m2, i2, s2, k2⟩ := c2
  dsimp only at hm hi hs
  subst hm; subst hi; subst hs
  exact ⟨rfl, rfl⟩

/-- A concrete context with an empty `chatKeywords` list. -/
def plainCtx : RecommendationContext :=
  { currentMood := some .calm, moodIntensity := 3,
    recentChatSummary := "hello", chatKeywords := [] }

/-- The same context as `plainCtx` except for an arbitrary `chatKeywords`
list. -/
def injectedCtx : RecommendationContext :=
  { currentMood := some .calm, moodIntensity := 3,
    recentChatSummary := "hello", chatKeywords := ["injected", "keywords"] }

/-- Witness for C10 at concrete inputs differing only in `chatKeywords`. -/
theorem chatKeywords_never_consulted_witness :
    scoreTool boxBreathing plainCtx = scoreTool boxBreathing injectedCtx ∧
    generateExplanation boxBreathing plainCtx = generateExplanation boxBreathing injectedCtx :=
  chatKeywords_never_consulted boxBreathing plainCtx injectedCtx rfl rfl rfl

/-- C4: with a present current mood, a tool whose `supportedMoods` contains
that mood scores exactly 20 points more than an otherwise-identical tool
whose `supportedMoods` does not; the cap at 100 never erodes the
difference. -/
theorem supportedMood_bonus (t1 t2 : CopingTool) (context : RecommendationContext)
    (m : Mood)
    (hmood : context.currentMood = some m)
    (h1 : t1.supportedMoods.contains m = true)
    (h2 : t2.supportedMoods.contains m = false)
    (hcat : t1.category = t2.category)
    (hint : t1.intensityLevel = t2.intensityLevel)
    (hdur : t1.durationMinutes = t2.durationMinutes) :
    scoreTool t1 context = scoreTool t2 context + 20 := by
  have e1 : moodComponent t1 context = 40 := by
    simp only [moodComponent, hmood, h1, if_pos]
  have e2 : moodComponent t2 context = 20 := by
    simp only [moodComponent, hmood, h2]
    simp
  have es : sentimentComponent t1 (analyzeChatSentiment context.recentChatSummary)
      = sentimentComponent t2 (analyzeChatSentiment context.recentChatSummary) := by
    unfold sentimentComponent
    rw [hcat]
  have ei : intensityComponent t1 context.moodIntensity
      = intensityComponent t2 context.moodIntensity := by
    unfold intensityComponent
    rw [hint]
  have ed : durationComponent t1 context = durationComponent t2 context := by
    unfold durationComponent
    rw [hdur]
  have bs := sentimentComponent_le t2 (analyzeChatSentiment context.recentChatSummary)
  have bi := intensityComponent_le t2 context.moodIntensity
  have bd := durationComponent_le t2 context
  unfold scoreTool
  rw [e1, e2, es, ei, ed, Nat.min_eq_left (by omega), Nat.min_eq_left (by omega)]
  omega

/-- A copy of `boxBreathing` that does not support the anxious mood. -/
def boxBreathingNoAnxious : CopingTool :=
  { boxBreathing with supportedMoods := [.frustrated, .neutral] }

/-- A context with an anxious current mood and an empty chat summary. -/
def anxiousCtx : RecommendationContext :=
  { currentMood := some .anxious, moodIntensity := 8,
    recentChatSummary := "", chatKeywords := [] }

/-- Witness for C4 at concrete inputs. -/
theorem supportedMood_bonus_witness :
    anxiousCtx.currentMood = some Mood.anxious ∧
    boxBreathing.supportedMoods.contains Mood.anxious = true ∧
    boxBreathingNoAnxious.supportedMoods.contains Mood.anxious = false ∧
    scoreTool boxBreathing anxiousCtx = scoreTool boxBreathingNoAnxious anxiousCtx + 20 :=
  ⟨rfl, by decide, by decide,
    supportedMood_bonus boxBreathing boxBreathingNoAnxious anxiousCtx Mood.anxious
      rfl (by decide) (by decide) rfl rfl rfl⟩

/-- The chat summary of the spec's Scenario A. -/
def scenarioAText : String :=
  "I" ++ singleQuote ++ "m having a panic attack, can" ++ singleQuote ++ "t breathe"

/-- The context of the spec's Scenario A: anxious mood at intensity 8 and a
crisis-bearing chat summary. -/
def scenarioACtx : RecommendationContext :=
  { currentMood := some .anxious, moodIntensity := 8,
    recentChatSummary := scenarioAText, chatKeywords := [] }

/-- C9: in Scenario A every breathing tool that supports the anxious mood and
has high intensity level scores exactly 90 = 40 + 30 + 20 + 0. -/
theorem scenarioA_score (tool : CopingTool)
    (hcat : tool.category = .breathing)
    (hm : tool.supportedMoods.contains Mood.anxious = true)
    (hint : tool.intensityLevel = .high) :
    scoreTool tool scenarioACtx = 90 := by
  have hcrisis : (analyzeChatSentiment scenarioACtx.recentChatSummary).hasCrisis = true := by
    decide
  have e1 : moodComponent tool scenarioACtx = 40 := by
    have h : scenarioACtx.currentMood = some Mood.anxious := rfl
    simp only [moodComponent, h, hm]
    simp
  have e2 : sentimentComponent tool (analyzeChatSentiment scenarioACtx.recentChatSummary) = 30 := by
    unfold sentimentComponent
    rw [hcrisis, hcat]
    simp
  have e3 : intensityComponent tool scenarioACtx.moodIntensity = 20 := by
    have h : scenarioACtx.moodIntensity = 8 := rfl
    unfold intensityComponent
    rw [hint, h]
    simp
  have e4 : durationComponent tool scenarioACtx = 0 := by
    unfold durationComponent
    have : scenarioACtx.currentMood = some .anxious := rfl
    rw [this]
    simp
  unfold scoreTool
  rw [e1, e2, e3, e4]
  decide

/-- Witness for C9 at the concrete Box Breathing tool. -/
theorem scenarioA_score_witness :
    boxBreathing.category = CopingCategory.breathing ∧
    boxBreathing.supportedMoods.contains Mood.anxious = true ∧
    boxBreathing.intensityLevel = IntensityLevel.high ∧
    scoreTool boxBreathing scenarioACtx = 90 :=
  ⟨rfl, by decide, rfl, scenarioA_score boxBreathing rfl (by decide) rfl⟩

/-- The mood fragment never coincides with the stress fragment. -/
theorem moodFragment_ne_stressReason (m : Mood) :
    "you felt " ++ m.label ++ " today" ≠ stressReason := by
  cases m <;> decide

/-- Counterexample for C2: on a chat summary containing both a crisis keyword
("panic") and a stress keyword ("pressure"), a movement-category tool still
receives the stress fragment in its explanation, because the explanation
branch conjoins each flag with the category test instead of branching on the
flags alone as the scorer does. -/
theorem crisis_stress_explanation_counterexample :
    (analyzeChatSentiment crisisStressCtx.recentChatSummary).hasCrisis = true ∧
    (analyzeChatSentiment crisisStressCtx.recentChatSummary).hasStress = true ∧
    stressReason ∈ explanationReasons stretchTool crisisStressCtx ∧
    generateExplanation stretchTool crisisStressCtx =
      "This technique is suggested because you felt anxious today and " ++
        "you mentioned feeling stressed or tense." := by
  refine ⟨by decide, by decide, by decide, by decide⟩

/-- C2 (amended): when the chat summary carries both a crisis and a stress
keyword, the stress branch contributes 0 points to `scoreTool` (the sentiment
component follows the crisis rule alone); in `generateExplanation` the stress
fragment is absent whenever the tool's category matches the crisis rule
(breathing or grounding) — but not in general, as the counterexample shows. -/
theorem crisis_priority (tool : CopingTool) (context : RecommendationContext)
    (hc : (analyzeChatSentiment context.recentChatSummary).hasCrisis = true)
    (_hs : (analyzeChatSentiment context.recentChatSummary).hasStress = true) :
    scoreTool tool context =
      min (moodComponent tool context
        + (if tool.category = .breathing ∨ tool.category = .grounding then 30 else 0)
        + intensityComponent tool context.moodIntensity
        + durationComponent tool context) 100 ∧
    ((tool.category = .breathing ∨ tool.category = .grounding) →
      stressReason ∉ explanationReasons tool context) := by
  constructor
  · unfold scoreTool sentimentComponent
    rw [hc]
    simp
  · intro hcat hmem
    simp only [explanationReasons] at hmem
    rw [if_pos (⟨hc, hcat⟩ :
      (analyzeChatSentiment context.recentChatSummary).hasCrisis = true ∧
        (tool.category = CopingCategory.breathing ∨
          tool.category = CopingCategory.grounding))] at hmem
    rcases List.mem_append.mp hmem with h | h
    · rcases List.mem_append.mp h with h2 | h2
      · rcases hmo : context.currentMood with _ | m <;> rw [hmo] at h2
        · exact absurd h2 (List.not_mem_nil _)
        · simp only [List.mem_singleton] at h2
          exact moodFragment_ne_stressReason m h2.symm
      · simp only [List.mem_singleton] at h2
        exact absurd h2 (by decide)
    · split at h
      · simp only [List.mem_singleton] at h
        exact absurd h (by decide)
      · exact absurd h (List.not_mem_nil _)

/-- Witness for the amended C2 at the concrete Box Breathing tool on a
summary with both crisis and stress keywords. -/
theorem crisis_priority_witness :
    (analyzeChatSentiment crisisStressCtx.recentChatSummary).hasCrisis = true ∧
    (analyzeChatSentiment crisisStressCtx.recentChatSummary).hasStress = true ∧
    (scoreTool boxBreathing crisisStressCtx =
      min (moodComponent boxBreathing crisisStressCtx
        + (if boxBreathing.category = .breathing ∨ boxBreathing.category = .grounding
            then 30 else 0)
        + intensityComponent boxBreathing crisisStressCtx.moodIntensity
        + durationComponent boxBreathing crisisStressCtx) 100 ∧
     ((boxBreathing.category = .breathing ∨ boxBreathing.category = .grounding) →
       stressReason ∉ explanationReasons boxBreathing crisisStressCtx)) :=
  ⟨by decide, by decide,
    crisis_priority boxBreathing crisisStressCtx (by decide) (by decide)⟩

/-- Counterexample for C3: a today-dated check-in with the out-of-enum mood
"angry" is not rejected — `buildRecommendationContext` still returns a
context; its `moodIntensity` is `undefined` (`none`), neither a failure nor
the default 5. -/
theorem invalid_mood_not_rejected_counterexample :
    Raw.buildRecommendationContext id "d" [{ mood := "angry", createdAt := "d" }] none =
      { currentMood := some "angry", moodIntensity := none,
        recentChatSummary := "", chatKeywords := [] } := by
  decide

/-- C3 (amended): `buildRecommendationContext` performs no mood validation
and never fails.  When the first today-dated check-in carries a non-empty
mood outside the intensity table, the returned context has that mood as
`currentMood` and an `undefined` (`none`) `moodIntensity` — the invalid value
propagates silently instead of being rejected. -/
theorem buildContext_invalid_mood (toDS : String → String) (today : String)
    (checkIns : List Raw.CheckIn) (msgs : Option (List Raw.ChatMessage))
    (c0 : Raw.CheckIn)
    (hhead : (checkIns.filter fun c => toDS c.createdAt = today).head? = some c0)
    (hinvalid : Raw.intensityMap c0.mood = none)
    (hne : c0.mood ≠ "") :
    (Raw.buildRecommendationContext toDS today checkIns msgs).currentMood = some c0.mood ∧
    (Raw.buildRecommendationContext toDS today checkIns msgs).moodIntensity = none := by
  unfold Raw.buildRecommendationContext
  rcases hfl : checkIns.filter fun c => toDS c.createdAt = today with _ | ⟨item, rest⟩
  · rw [hfl] at hhead
    exact absurd hhead (by simp)
  · rw [hfl] at hhead
    simp only [List.head?_cons, Option.some_inj] at hhead
    subst hhead
    rw [hfl]
    constructor
    · rfl
    · show Raw.getMoodIntensity (some item.mood) = none
      simp only [Raw.getMoodIntensity]
      rw [if_neg hne]
      exact hinvalid

/-- A concrete check-in whose mood lies outside the closed enum. -/
def angryCheckIn : Raw.CheckIn := { mood := "angry", createdAt := "d" }

/-- Witness for the amended C3 at a concrete out-of-enum mood. -/
theorem buildContext_invalid_mood_witness :
    (([angryCheckIn].filter fun c => id c.createdAt = "d").head? = some angryCheckIn) ∧
    Raw.intensityMap angryCheckIn.mood = none ∧
    ((Raw.buildRecommendationContext id "d" [angryCheckIn] none).currentMood =
        some angryCheckIn.mood ∧
     (Raw.buildRecommendationContext id "d" [angryCheckIn] none).moodIntensity = none) :=
  ⟨by decide, by decide,
    buildContext_invalid_mood id "d" [angryCheckIn] none angryCheckIn
      (by decide) (by decide) (by decide)⟩

/-- C8: edge inputs are valid defaults, not failures.  With no check-in dated
today, `currentMood` is absent and `moodIntensity` defaults to 5; with an
empty chat-message sequence, the summary is empty, the keywords list is
empty, and all three sentiment flags on the summary are false. -/
theorem buildContext_edge_defaults (toDS : String → String) (today : String)
    (checkIns : List Raw.CheckIn) (msgs : Option (List Raw.ChatMessage))
    (h : ∀ c ∈ checkIns, toDS c.createdAt ≠ today) :
    (Raw.buildRecommendationContext toDS today checkIns msgs).currentMood = none ∧
    (Raw.buildRecommendationContext toDS today checkIns msgs).moodIntensity = some 5 ∧
    (Raw.buildRecommendationContext toDS today checkIns (some [])).recentChatSummary = "" ∧
    (Raw.buildRecommendationContext toDS today checkIns (some [])).chatKeywords = [] ∧
    (analyzeChatSentiment (Raw.buildRecommendationContext toDS today checkIns
      (some [])).recentChatSummary).hasCrisis = false ∧
    (analyzeChatSentiment (Raw.buildRecommendationContext toDS today checkIns
      (some [])).recentChatSummary).hasLowMood = false ∧
    (analyzeChatSentiment (Raw.buildRecommendationContext toDS today checkIns
      (some [])).recentChatSummary).hasStress = false := by
  have hfl : (checkIns.filter fun c => toDS c.createdAt = today) = [] := by
    rw [List.filter_eq_nil_iff]
    intro c hc
    simpa using h c hc
  refine ⟨?_, ?_, ?_, ?_, ?_, ?_, ?_⟩
  · unfold Raw.buildRecommendationContext
    rw [hfl]
  · unfold Raw.buildRecommendationContext
    rw [hfl]
    rfl
  · rfl
  · rfl
  · rfl
  · rfl
  · rfl

/-- A concrete check-in not dated today. -/
def yesterdayCheckIn : Raw.CheckIn := { mood := "happy", createdAt := "yesterday" }

/-- Witness for C8 at concrete inputs. -/
theorem buildContext_edge_defaults_witness :
    (∀ c ∈ [yesterdayCheckIn], id c.createdAt ≠ "today") ∧
    ((Raw.buildRecommendationContext id "today" [yesterdayCheckIn] none).currentMood = none ∧
     (Raw.buildRecommendationContext id "today" [yesterdayCheckIn] none).moodIntensity = some 5 ∧
     (Raw.buildRecommendationContext id "today" [yesterdayCheckIn]
        (some [])).recentChatSummary = "" ∧
     (Raw.buildRecommendationContext id "today" [yesterdayCheckIn]
        (some [])).chatKeywords = [] ∧
     (analyzeChatSentiment (Raw.buildRecommendationContext id "today" [yesterdayCheckIn]
        (some [])).recentChatSummary).hasCrisis = false ∧
     (analyzeChatSentiment (Raw.buildRecommendationContext id "today" [yesterdayCheckIn]
        (some [])).recentChatSummary).hasLowMood = false ∧
     (analyzeChatSentiment (Raw.buildRecommendationContext id "today" [yesterdayCheckIn]
        (some [])).recentChatSummary).hasStress = false) :=
  ⟨by decide, buildContext_edge_defaults id "today" [yesterdayCheckIn] none (by decide)⟩

/-- The descending-score comparator is transitive. -/
theorem scoreDesc_trans (a b c : RecommendedTool) :
    scoreDesc a b → scoreDesc b c → scoreDesc a c := by
  simp only [scoreDesc, decide_eq_true_eq]
  omega

/-- The descending-score comparator is total. -/
theorem scoreDesc_total (a b : RecommendedTool) :
    scoreDesc a b || scoreDesc b a := by
  simp only [scoreDesc, Bool.or_eq_true, decide_eq_true_eq]
  omega

/-- C5: the orchestrator's output is sorted in non-increasing score order,
and is stable: for every score value, the entries carrying that score appear
in exactly the catalog order (the filtered sublists of output and of the
unsorted scored list coincide). -/
theorem recommend_sorted_stable (tools : List CopingTool)
    (context : RecommendationContext) :
    (getRecommendedCopingTools tools context).Pairwise
      (fun a b => b.score ≤ a.score) ∧
    ∀ s : Nat,
      (getRecommendedCopingTools tools context).filter (fun t => t.score = s) =
        (scoredTools tools context).filter (fun t => t.score = s) := by
  constructor
  · have hp := List.sorted_mergeSort
      scoreDesc_trans scoreDesc_total (scoredTools tools context)
    exact hp.imp fun {a b} hab => by
      simpa [scoreDesc] using hab
  · intro s
    set L := scoredTools tools context with hL
    set p : RecommendedTool → Bool := fun t => decide (t.score = s) with hp
    have hmemscore : ∀ x ∈ L.filter p, x.score = s := by
      intro x hx
      have := (List.mem_filter.mp hx).2
      simpa [hp] using this
    have hpair : (L.filter p).Pairwise fun a b => scoreDesc a b := by
      apply List.pairwise_of_forall_mem_list
      intro a ha b hb
      simp only [scoreDesc, decide_eq_true_eq]
      rw [hmemscore a ha, hmemscore b hb]
    have hsub : List.Sublist (L.filter p) (L.mergeSort scoreDesc) :=
      List.sublist_mergeSort scoreDesc_trans scoreDesc_total hpair (List.filter_sublist L)
    have hsub2 : List.Sublist (L.filter p) ((L.mergeSort scoreDesc).filter p) := by
      have hfs := hsub.filter p
      rw [List.filter_filter] at hfs
      have heq : List.filter (fun a => p a && p a) L = List.filter p L :=
        List.filter_congr fun x _ => Bool.and_self (p x)
      rwa [heq] at hfs
    have hlen : ((L.mergeSort scoreDesc).filter p).length = (L.filter p).length :=
      ((List.mergeSort_perm L scoreDesc).filter p).length_eq
    exact (hsub2.eq_of_length hlen.symm).symm

/-- Two decompositions of a list around an element absent from both prefixes
have the same prefix. -/
theorem prefix_eq_of_append_cons {α : Type} {a : α} (s : List α) :
    ∀ (t s2 t2 : List α), a ∉ s → a ∉ t → s ++ a :: s2 = t ++ a :: t2 → s = t := by
  induction s with
  | nil =>
    intro t s2 t2 _ hat h
    cases t with
    | nil => rfl
    | cons b tl =>
      rw [List.nil_append, List.cons_append] at h
      injection h with h1 h2
      subst h1
      exact absurd (List.mem_cons_self a tl) hat
  | cons b sl ih =>
    intro t s2 t2 has hat h
    cases t with
    | nil =>
      rw [List.cons_append, List.nil_append] at h
      injection h with h1 h2
      subst h1
      exact absurd (List.mem_cons_self b sl) has
    | cons c tl =>
      rw [List.cons_append, List.cons_append] at h
      injection h with h1 h2
      have htl := ih tl s2 t2 (fun hm => has (List.mem_cons_of_mem b hm))
        (fun hm => hat (List.mem_cons_of_mem c hm)) h2
      rw [h1, htl]

/-- In a duplicate-free list, every element declared before the one returned
by `find?` fails the predicate. -/
theorem find?_earlier_false {p : String → Bool} {L pre suf : List String} {kw : String}
    (hf : L.find? p = some kw) (hnd : L.Nodup) (hdec : L = pre ++ kw :: suf) :
    ∀ x ∈ pre, p x = false := by
  intro x hx
  obtain ⟨hpkw, as, bs, heq, hfail⟩ := List.find?_eq_some.mp hf
  have hnd1 : (pre ++ kw :: suf).Nodup := hdec ▸ hnd
  have hnd2 : (as ++ kw :: bs).Nodup := heq ▸ hnd
  have hkpre : kw ∉ pre := fun hm =>
    (List.nodup_cons.mp (List.nodup_middle.mp hnd1)).1 (List.mem_append_left _ hm)
  have hkas : kw ∉ as := fun hm =>
    (List.nodup_cons.mp (List.nodup_middle.mp hnd2)).1 (List.mem_append_left _ hm)
  have hpre : pre = as :=
    prefix_eq_of_append_cons pre as suf bs hkpre hkas (hdec.symm.trans heq)
  have := hfail x (hpre ▸ hx)
  simpa using this

/-- The three keyword lists hold no duplicates. -/
theorem crisis_keywords_nodup : CRISIS_KEYWORDS.Nodup := by decide

/-- The low-mood keyword list holds no duplicates. -/
theorem lowMood_keywords_nodup : LOW_MOOD_KEYWORDS.Nodup := by decide

/-- The stress keyword list holds no duplicates. -/
theorem stress_keywords_nodup : STRESS_KEYWORDS.Nodup := by decide

/-- No low-mood keyword is a crisis keyword. -/
theorem lowMood_disjoint_crisis : ∀ z ∈ LOW_MOOD_KEYWORDS, z ∉ CRISIS_KEYWORDS := by decide

/-- No stress keyword is a crisis keyword. -/
theorem stress_disjoint_crisis : ∀ z ∈ STRESS_KEYWORDS, z ∉ CRISIS_KEYWORDS := by decide

/-- No crisis keyword is a low-mood keyword. -/
theorem crisis_disjoint_lowMood : ∀ z ∈ CRISIS_KEYWORDS, z ∉ LOW_MOOD_KEYWORDS := by decide

/-- No stress keyword is a low-mood keyword. -/
theorem stress_disjoint_lowMood : ∀ z ∈ STRESS_KEYWORDS, z ∉ LOW_MOOD_KEYWORDS := by decide

/-- No crisis keyword is a stress keyword. -/
theorem crisis_disjoint_stress : ∀ z ∈ CRISIS_KEYWORDS, z ∉ STRESS_KEYWORDS := by decide

/-- No low-mood keyword is a stress keyword. -/
theorem lowMood_disjoint_stress : ∀ z ∈ LOW_MOOD_KEYWORDS, z ∉ STRESS_KEYWORDS := by decide

/-- An optional value contributes at most one `countP` hit. -/
theorem countP_option_toList_le_one (P : String → Bool) (o : Option String) :
    List.countP P o.toList ≤ 1 := by
  rcases o with _ | a
  · simp
  · by_cases h : P a <;> simp [List.countP_cons, h]

/-- An optional value failing the predicate contributes no `countP` hit. -/
theorem countP_option_toList_eq_zero {P : String → Bool} {o : Option String}
    (h : ∀ y, o = some y → P y = false) :
    List.countP P o.toList = 0 := by
  rcases o with _ | a
  · rfl
  · simp [List.countP_cons, h a rfl]

/-- C7: the analyzer records at most one keyword per category (at most three
in total); every recorded keyword is a case-insensitive substring match
against the input text; and the recorded keyword of a category is the
earliest-declared matching term of that category's list — every keyword
declared before it in the same list fails to match. -/
theorem analyzeChatSentiment_first_match (text kw x : String)
    (L pre suf : List String)
    (hL : L = CRISIS_KEYWORDS ∨ L = LOW_MOOD_KEYWORDS ∨ L = STRESS_KEYWORDS)
    (hkw : kw ∈ (analyzeChatSentiment text).keywords)
    (hkwL : kw ∈ L)
    (hdec : L = pre ++ kw :: suf)
    (hx : x ∈ pre) :
    (analyzeChatSentiment text).keywords.length ≤ 3 ∧
    (analyzeChatSentiment text).keywords.countP (fun k => decide (k ∈ CRISIS_KEYWORDS)) ≤ 1 ∧
    (analyzeChatSentiment text).keywords.countP (fun k => decide (k ∈ LOW_MOOD_KEYWORDS)) ≤ 1 ∧
    (analyzeChatSentiment text).keywords.countP (fun k => decide (k ∈ STRESS_KEYWORDS)) ≤ 1 ∧
    jsIncludes (jsToLowerCase text) kw = true ∧
    jsIncludes (jsToLowerCase text) x = false := by
  have hkeys : (analyzeChatSentiment text).keywords =
      (CRISIS_KEYWORDS.find? fun k => jsIncludes (jsToLowerCase text) k).toList ++
      (LOW_MOOD_KEYWORDS.find? fun k => jsIncludes (jsToLowerCase text) k).toList ++
      (STRESS_KEYWORDS.find? fun k => jsIncludes (jsToLowerCase text) k).toList := rfl
  have zC : ∀ (P : String → Bool), (∀ z ∈ CRISIS_KEYWORDS, P z = false) →
      List.countP P (CRISIS_KEYWORDS.find? fun k => jsIncludes (jsToLowerCase text) k).toList
        = 0 := fun P hdis =>
    countP_option_toList_eq_zero fun y hy => hdis y (List.mem_of_find?_eq_some hy)
  have zL : ∀ (P : String → Bool), (∀ z ∈ LOW_MOOD_KEYWORDS, P z = false) →
      List.countP P (LOW_MOOD_KEYWORDS.find? fun k => jsIncludes (jsToLowerCase text) k).toList
        = 0 := fun P hdis =>
    countP_option_toList_eq_zero fun y hy => hdis y (List.mem_of_find?_eq_some hy)
  have zS : ∀ (P : String → Bool), (∀ z ∈ STRESS_KEYWORDS, P z = false) →
      List.countP P (STRESS_KEYWORDS.find? fun k => jsIncludes (jsToLowerCase text) k).toList
        = 0 := fun P hdis =>
    countP_option_toList_eq_zero fun y hy => hdis y (List.mem_of_find?_eq_some hy)
  refine ⟨?_, ?_, ?_, ?_, ?_⟩
  · rw [hkeys]
    rcases CRISIS_KEYWORDS.find? fun k => jsIncludes (jsToLowerCase text) k with _ | a <;>
      rcases LOW_MOOD_KEYWORDS.find? fun k => jsIncludes (jsToLowerCase text) k with _ | b <;>
      rcases STRESS_KEYWORDS.find? fun k => jsIncludes (jsToLowerCase text) k with _ | c <;>
      simp
  · rw [hkeys, List.countP_append, List.countP_append]
    have h2 := zL (fun k => decide (k ∈ CRISIS_KEYWORDS))
      fun z hz => decide_eq_false (lowMood_disjoint_crisis z hz)
    have h3 := zS (fun k => decide (k ∈ CRISIS_KEYWORDS))
      fun z hz => decide_eq_false (stress_disjoint_crisis z hz)
    have h1 := countP_option_toList_le_one (fun k => decide (k ∈ CRISIS_KEYWORDS))
      (CRISIS_KEYWORDS.find? fun k => jsIncludes (jsToLowerCase text) k)
    omega
  · rw [hkeys, List.countP_append, List.countP_append]
    have h1 := zC (fun k => decide (k ∈ LOW_MOOD_KEYWORDS))
      fun z hz => decide_eq_false (crisis_disjoint_lowMood z hz)
    have h3 := zS (fun k => decide (k ∈ LOW_MOOD_KEYWORDS))
      fun z hz => decide_eq_false (stress_disjoint_lowMood z hz)
    have h2 := countP_option_toList_le_one (fun k => decide (k ∈ LOW_MOOD_KEYWORDS))
      (LOW_MOOD_KEYWORDS.find? fun k => jsIncludes (jsToLowerCase text) k)
    omega
  · rw [hkeys, List.countP_append, List.countP_append]
    have h1 := zC (fun k => decide (k ∈ STRESS_KEYWORDS))
      fun z hz => decide_eq_false (crisis_disjoint_stress z hz)
    have h2 := zL (fun k => decide (k ∈ STRESS_KEYWORDS))
      fun z hz => decide_eq_false (lowMood_disjoint_stress z hz)
    have h3 := countP_option_toList_le_one (fun k => decide (k ∈ STRESS_KEYWORDS))
      (STRESS_KEYWORDS.find? fun k => jsIncludes (jsToLowerCase text) k)
    omega
  · rw [hkeys] at hkw
    rcases List.mem_append.mp hkw with h12 | h3
    rcases List.mem_append.mp h12 with h1 | h2
    · have hsrc : CRISIS_KEYWORDS.find? (fun k => jsIncludes (jsToLowerCase text) k)
          = some kw := Option.mem_toList.mp h1
      rcases hL with rfl | rfl | rfl
      · exact ⟨List.find?_some hsrc,
          find?_earlier_false hsrc crisis_keywords_nodup hdec x hx⟩
      · exact absurd hkwL (crisis_disjoint_lowMood kw (List.mem_of_find?_eq_some hsrc))
      · exact absurd hkwL (crisis_disjoint_stress kw (List.mem_of_find?_eq_some hsrc))
    · have hsrc : LOW_MOOD_KEYWORDS.find? (fun k => jsIncludes (jsToLowerCase text) k)
          = some kw := Option.mem_toList.mp h2
      rcases hL with rfl | rfl | rfl
      · exact absurd hkwL (lowMood_disjoint_crisis kw (List.mem_of_find?_eq_some hsrc))
      · exact ⟨List.find?_some hsrc,
          find?_earlier_false hsrc lowMood_keywords_nodup hdec x hx⟩
      · exact absurd hkwL (lowMood_disjoint_stress kw (List.mem_of_find?_eq_some hsrc))
    · have hsrc : STRESS_KEYWORDS.find? (fun k => jsIncludes (jsToLowerCase text) k)
          = some kw := Option.mem_toList.mp h3
      rcases hL with rfl | rfl | rfl
      · exact absurd hkwL (stress_disjoint_crisis kw (List.mem_of_find?_eq_some hsrc))
      · exact absurd hkwL (stress_disjoint_lowMood kw (List.mem_of_find?_eq_some hsrc))
      · exact ⟨List.find?_some hsrc,
          find?_earlier_false hsrc stress_keywords_nodup hdec x hx⟩

/-- The crisis list up to (excluding) "dizzy", used by the C7 witness. -/
def crisisPreDizzy : List String :=
  ["panic", "overwhelmed", "heart racing", "can" ++ singleQuote ++ "t breathe", "scared",
   "terrified", "anxiety attack", "out of control"]

/-- Witness for C7: in "dizzy and shaking hands" both "dizzy" and "shaking"
are crisis keywords, yet only "dizzy" (declared first) is recorded, and the
earlier-declared "scared" does not match. -/
theorem analyzeChatSentiment_first_match_witness :
    (analyzeChatSentiment "dizzy and shaking hands").keywords.length ≤ 3 ∧
    (analyzeChatSentiment "dizzy and shaking hands").keywords.countP
      (fun k => decide (k ∈ CRISIS_KEYWORDS)) ≤ 1 ∧
    (analyzeChatSentiment "dizzy and shaking hands").keywords.countP
      (fun k => decide (k ∈ LOW_MOOD_KEYWORDS)) ≤ 1 ∧
    (analyzeChatSentiment "dizzy and shaking hands").keywords.countP
      (fun k => decide (k ∈ STRESS_KEYWORDS)) ≤ 1 ∧
    jsIncludes (jsToLowerCase "dizzy and shaking hands") "dizzy" = true ∧
    jsIncludes (jsToLowerCase "dizzy and shaking hands") "scared" = false :=
  analyzeChatSentiment_first_match "dizzy and shaking hands" "dizzy" "scared"
    CRISIS_KEYWORDS crisisPreDizzy ["shaking"] (Or.inl rfl) (by decide) (by decide)
    (by decide) (by decide)
